import Mathlib

/-!
Verification of the allo_list_matching weekly master-reconciliation scripts.

Shallow embedding of the matching engine of
`index検索対応版週次マスタ更新処理.py` (record normalization, index lookup,
tier matching, weight-band filter, similarity ranking) and of the ledger
merger of `テストスクリプト/週次統合リスト作成.py` / `統合スクリプト.py`
(`clean_jan_codes`, `remove_duplicates_advanced`).

Modelling conventions:
* A pandas cell that may be missing is an `Option String`; `none` is NA/NaN.
* A raw weight cell (`目付`) is a `RawVal`: `na` for a missing cell
  (`pd.isna` true), `num q` for a value that `float()` / `pd.to_numeric`
  parses to the number `q`, `unparsable s` for a non-missing cell that does
  not parse.  Numbers are modelled by `ℚ`; the scripts' float constants
  `0.8`, `1.2`, `0.8` (threshold) become the exact rationals `4/5`, `6/5`,
  `8/10`.
* The external fuzzy ratio `fuzz.ratio` (an integer percentage) is a
  parameter `fr : String → String → ℚ`; every theorem holds for all of them.
* A pandas index lookup (`df.loc[key]`, `KeyError` caught and turned into an
  empty frame) is a total `List.filter`, which preserves row order exactly
  like `.loc` does.
* The one fallible step of the matcher — the `best_old_row` fetch
  `df_old_original[df_old_original['JANコード_旧'] == best_jan].iloc[0]`,
  which raises IndexError on an empty selection — is modelled with
  `Option`: `none` is the uncaught exception that aborts the batch.
-/

/-- A raw numeric-ish cell: missing, parsing to a number, or unparsable. -/
inductive RawVal where
  | na : RawVal
  | num : ℚ → RawVal
  | unparsable : String → RawVal
deriving DecidableEq

/-- One row of the NEW master, fields as read by `find_best_match`
(`メーカー名称_新`, `ブランドコード_新`, `標準分類コード(タイプ)_新`,
`目付_新`, `商品名称（カナ）_新`). -/
structure NewRec where
  makerName : Option String
  brandCode : Option String
  typeCode : Option String
  weight : RawVal
  nameKana : Option String
deriving DecidableEq

/-- One row of the OLD master before `preprocess_old_data`. -/
structure OldRec where
  makerName : Option String
  brandCode : Option String
  typeCode : Option String
  weight : RawVal
  nameKana : Option String
  jan : Option String
deriving DecidableEq

/-- One row of the OLD master after `preprocess_old_data`: the three key
columns went through `astype(str).str.strip()` (so NA becomes the literal
string "nan"), and `目付_旧_float = pd.to_numeric(目付_旧, errors='coerce')`. -/
structure OldRecP where
  makerName : String
  brandCode : String
  typeCode : String
  weightF : Option ℚ
  nameKana : Option String
  jan : Option String
deriving DecidableEq

/-- Python `str.strip()`: drop leading and trailing whitespace (structural
definition over the character list, so that it evaluates by reduction). -/
def strip (s : String) : String :=
  String.mk
    (((s.toList.dropWhile (fun c => c.isWhitespace)).reverse.dropWhile
        (fun c => c.isWhitespace)).reverse)

/-- Python `str.lower()`, character by character. -/
def lowerStr (s : String) : String :=
  String.mk (s.toList.map Char.toLower)

/-- Python `str(x)` on a possibly-missing cell: NA/NaN prints as "nan". -/
def strOfCell : Option String → String
  | none => "nan"
  | some s => s

/-- `pd.to_numeric(·, errors='coerce')` on a raw cell. -/
def to_numeric : RawVal → Option ℚ
  | RawVal.na => none
  | RawVal.num q => some q
  | RawVal.unparsable _ => none

/-- `preprocess_old_data`, per row: strip the three key columns through
`astype(str).str.strip()` and coerce `目付_旧` to `目付_旧_float`. -/
def preprocess_old (o : OldRec) : OldRecP :=
  { makerName := strip (strOfCell o.makerName)
    brandCode := strip (strOfCell o.brandCode)
    typeCode := strip (strOfCell o.typeCode)
    weightF := to_numeric o.weight
    nameKana := o.nameKana
    jan := o.jan }

/-- `preprocess_old_data` over the whole OLD set. -/
def preprocess_old_data (olds : List OldRec) : List OldRecP :=
  olds.map preprocess_old

/-- `df.replace('NULL', pd.NA)` on one string cell (`load_data`). -/
def replace_null : Option String → Option String
  | none => none
  | some s => if s == "NULL" then none else some s

/-- `df.replace('NULL', pd.NA)` on a raw numeric-ish cell. -/
def replace_null_raw : RawVal → RawVal
  | RawVal.na => RawVal.na
  | RawVal.num q => RawVal.num q
  | RawVal.unparsable s => if s == "NULL" then RawVal.na else RawVal.unparsable s

/-- The normalization `load_data` applies to a NEW row. -/
def load_norm_new (r : NewRec) : NewRec :=
  { makerName := replace_null r.makerName
    brandCode := replace_null r.brandCode
    typeCode := replace_null r.typeCode
    weight := replace_null_raw r.weight
    nameKana := replace_null r.nameKana }

/-- The normalization `load_data` applies to an OLD row. -/
def load_norm_old (o : OldRec) : OldRec :=
  { makerName := replace_null o.makerName
    brandCode := replace_null o.brandCode
    typeCode := replace_null o.typeCode
    weight := replace_null_raw o.weight
    nameKana := replace_null o.nameKana
    jan := replace_null o.jan }

/-- Key normalization in `find_best_match`:
`str(x).strip() if pd.notna(x) else None`, then `'nan' → None`. -/
def normKey : Option String → Option String
  | none => none
  | some s =>
      let t := strip s
      if t == "nan" then none else some t

/-- Python truthiness of an optional string (`if new_brand:`):
None and the empty string are falsy. -/
def truthy : Option String → Bool
  | none => false
  | some s => !(s == "")

/-- Python truthiness of an optional number (`if min_w and max_w:`):
None and 0 are falsy. -/
def truthyQ : Option ℚ → Bool
  | none => false
  | some q => !(q == 0)

/-- `pd.notna` on a raw cell: only a missing cell is NA. -/
def notna : RawVal → Bool
  | RawVal.na => false
  | RawVal.num _ => true
  | RawVal.unparsable _ => true

/-- `get_weight_range`: the ±20 % band `(w*0.8, w*1.2)`, or `(None, None)`
when `float(weight)` raises. -/
def get_weight_range : RawVal → Option ℚ × Option ℚ
  | RawVal.num q => (some (q * (4/5)), some (q * (6/5)))
  | RawVal.na => (none, none)
  | RawVal.unparsable _ => (none, none)

/-- The weight-band membership test
`(目付_旧_float >= min_w) & (目付_旧_float <= max_w)`; a NaN old weight
compares false on both sides, exactly as in pandas. -/
def inRange (minW maxW w : Option ℚ) : Bool :=
  match w, minW, maxW with
  | some x, some a, some b => decide (a ≤ x) && decide (x ≤ b)
  | _, _, _ => false

/-- `calculate_similarity`: 0.0 when either side is NA, otherwise the
external `fuzz.ratio` percentage divided by 100. -/
def calculate_similarity (fr : String → String → ℚ) :
    Option String → Option String → ℚ
  | some a, some b => fr a b / 100
  | _, _ => 0

/-- `'、'.join(skip_reasons) if skip_reasons else ''`. -/
def joinSkips (skips : List String) : String :=
  String.intercalate "、" skips

/-- The result dict produced by `find_best_match` for one NEW row.
`bestName`/`bestJan` are the `(name, jan)` pair of `similarities[0]`;
`oldRow` is `best_old_row`, the first OLD row whose `JANコード_旧` equals
the winning jan (pandas `==` never matches NA; when the selection is empty
the source raises IndexError instead of building this dict — see
`scorePhase`).  The formatted `候補` label is determined by `bestName` and
`saikouRuijido` and is not modelled separately. -/
structure MatchResult where
  shougouKekka : String
  saikouRuijido : ℚ
  hantei : String
  skipRiyuu : String
  kouhoAri : Bool
  bestName : Option String
  bestJan : Option String
  oldRow : Option OldRec
  patName : Option String
deriving DecidableEq

/-- A no-candidate dict: `{'照合結果': msg, '最高類似度': 0.0, '判定': '✕',
'候補': '', 'スキップ理由': sk, '候補あり': False}`. -/
def mkNoCand (msg sk : String) : MatchResult :=
  { shougouKekka := msg
    saikouRuijido := 0
    hantei := "✕"
    skipRiyuu := sk
    kouhoAri := false
    bestName := none
    bestJan := none
    oldRow := none
    patName := none }

/-- Deduplication keeping the first occurrence of each key
(pandas `drop_duplicates(keep='first')`); `seen` accumulates keys already
emitted. -/
def dedupBy {α β : Type} [DecidableEq β] (key : α → β) :
    List β → List α → List α
  | _, [] => []
  | seen, x :: xs =>
      if key x ∈ seen then dedupBy key seen xs
      else x :: dedupBy key (key x :: seen) xs

/-- Stable insertion for a descending sort: `x` is placed after every
already-placed element whose key is ≥ its own, so equal keys keep their
original relative order. -/
def insertDesc {α : Type} (key : α → ℚ) (x : α) : List α → List α
  | [] => [x]
  | y :: ys => if key y < key x then x :: y :: ys else y :: insertDesc key x ys

/-- Stable descending sort by a rational key
(`similarities.sort(key=lambda x: x[0], reverse=True)`; Python's sort is
stable also with `reverse=True`). -/
def stableSortDesc {α : Type} (key : α → ℚ) (l : List α) : List α :=
  l.foldl (fun acc x => insertDesc key x acc) []

/-- The candidate pairs `matching_old[['商品名称（カナ）_旧', 'JANコード_旧']]
.drop_duplicates()`. -/
def candPairs (matching : List OldRecP) : List (Option String × Option String) :=
  dedupBy (fun p => p) [] (matching.map (fun o => (o.nameKana, o.jan)))

/-- pandas equality `df_old_original['JANコード_旧'] == best_jan` for one
row: a NaN jan on either side never matches. -/
def janEq (bj : Option String) (o : OldRec) : Bool :=
  match bj with
  | none => false
  | some j => o.jan == some j

/-- The winning-result dict of `find_best_match` (the return value built at
lines 372-391 of the source) from `similarities[0] = (bs, bn, bj)` and the
fetched `best_old_row`. -/
def mkMatched (bs : ℚ) (bn bj : Option String) (sk : List String)
    (pat : String) (bestOld : OldRec) : MatchResult :=
  { shougouKekka :=
      if (8 : ℚ)/10 ≤ bs then "高類似度候補あり (80%以上)"
      else "低類似度 (80%未満・要手動確認)"
    saikouRuijido := bs
    hantei := if (8 : ℚ)/10 ≤ bs then "○" else "✕"
    skipRiyuu := joinSkips sk
    kouhoAri := true
    bestName := bn
    bestJan := bj
    oldRow := some bestOld
    patName := some pat }

/-- The scoring tail of `find_best_match`: deduplicate `(name, jan)` pairs,
score each against the NEW kana name, stable-sort descending, take the top
entry, fetch `best_old_row` and build the result dict.  The fetch
`df_old_original[df_old_original['JANコード_旧'] == best_jan].iloc[0]`
raises IndexError when the selection is empty — the winning jan missing or
matching no OLD row — so the result is an `Option MatchResult`, `none`
being the uncaught exception that aborts the batch. -/
def scorePhase (fr : String → String → ℚ) (olds : List OldRec)
    (name : Option String) (matching : List OldRecP)
    (skips : List String) (pat : String) : Option MatchResult :=
  let cands := candPairs matching
  if cands.isEmpty then
    some (mkNoCand "候補なし（名称一致なし）" (joinSkips skips))
  else
    let sims := cands.map (fun p => (calculate_similarity fr name p.1, p))
    match (stableSortDesc (fun t => t.1) sims).head? with
    | none => some (mkNoCand "候補なし（名称一致なし）" (joinSkips skips))
    | some (bs, bn, bj) =>
        (olds.find? (janEq bj)).map (mkMatched bs bn bj skips pat)

/-- The shared body of both tiers of `find_best_match`: the empty-lookup
check, the weight-band filter behind `if pd.notna(new_weight)` and
`if min_w and max_w`, and the scoring tail. -/
def runTier (fr : String → String → ℚ) (olds : List OldRec) (r : NewRec)
    (matching0 : List OldRecP) (mismatchMsg patOnly patWeight : String) :
    Option MatchResult :=
  if matching0.isEmpty then some (mkNoCand mismatchMsg "")
  else
    if notna r.weight then
      let wr := get_weight_range r.weight
      if truthyQ wr.1 && truthyQ wr.2 then
        let wf := matching0.filter (fun o => inRange wr.1 wr.2 o.weightF)
        if wf.isEmpty then some (mkNoCand "候補なし（目付範囲外）" "")
        else scorePhase fr olds r.nameKana wf [] patWeight
      else scorePhase fr olds r.nameKana matching0 [] patOnly
    else scorePhase fr olds r.nameKana matching0 ["目付スキップ"] patOnly

/-- The brand index lookup `df_old_brands_indexed.loc[new_brand]`
(`KeyError` means an empty frame). -/
def brandLookup (oldsP : List OldRecP) (b : String) : List OldRecP :=
  oldsP.filter (fun o => o.brandCode == b)

/-- The composite index lookup
`df_old_multi_indexed.loc[(new_maker_name, new_type)]`. -/
def mtLookup (oldsP : List OldRecP) (m t : String) : List OldRecP :=
  oldsP.filter (fun o => o.makerName == m && o.typeCode == t)

/-- `find_best_match` for one NEW row against the OLD set; `none` is the
IndexError escaping from the `best_old_row` fetch. -/
def find_best_match (fr : String → String → ℚ) (olds : List OldRec)
    (r : NewRec) : Option MatchResult :=
  let oldsP := preprocess_old_data olds
  let brand := normKey r.brandCode
  let maker := normKey r.makerName
  let tcode := normKey r.typeCode
  if truthy brand then
    runTier fr olds r (brandLookup oldsP (brand.getD ""))
      "候補なし（ブランド不一致）" "ブランドのみ" "ブランド+目付"
  else if truthy maker && truthy tcode then
    runTier fr olds r (mtLookup oldsP (maker.getD "") (tcode.getD ""))
      "候補なし（メーカー名称+タイプ不一致）" "メーカー名称+タイプのみ"
      "メーカー名称+タイプ+目付"
  else some (mkNoCand "候補なし（キーコード不足）" "")

/-- `clean_initial_data` on the NEW set: drop rows whose three key columns
are all NA. -/
def clean_initial_data (rs : List NewRec) : List NewRec :=
  rs.filter (fun r =>
    !(r.makerName.isNone && r.brandCode.isNone && r.typeCode.isNone))

/-- The result-collecting loop of `process_master_data`: one
`find_best_match` call per row, results appended in order; the first
exception propagates (re-raised by the `except` clause) and aborts the
whole batch, yielding `none`. -/
def collectResults (f : NewRec → Option MatchResult) :
    List NewRec → Option (List MatchResult)
  | [] => some []
  | r :: rs =>
      (f r).bind (fun res =>
        (collectResults f rs).map (fun others => res :: others))

/-- The per-record result list built by the main loop of
`process_master_data` over the cleansed NEW set; `none` when some record's
matching raised and the batch aborted. -/
def matchResults (fr : String → String → ℚ) (olds : List OldRec)
    (news : List NewRec) : Option (List MatchResult) :=
  collectResults (find_best_match fr olds) (clean_initial_data news)

/-- The primary report of `process_master_data`: the NEW rows paired with
their results, restricted by `final_df[final_df['候補あり'] == True]`;
`none` when the batch aborted. -/
def primary_report (fr : String → String → ℚ) (olds : List OldRec)
    (news : List NewRec) : Option (List (NewRec × MatchResult)) :=
  (matchResults fr olds news).map (fun results =>
    ((clean_initial_data news).zip results).filter (fun p => p.2.kouhoAri))

/-- A sample OLD record with brand code "B1" and the given weight. -/
def oldW (w : ℚ) : OldRec :=
  { makerName := some "M", brandCode := some "B1", typeCode := some "7",
    weight := RawVal.num w, nameKana := some "ソープ",
    jan := some "4900000000010" }

/-- A sample NEW record with brand code "B1" and the given raw weight cell. -/
def newW (v : RawVal) : NewRec :=
  { makerName := none, brandCode := some "B1", typeCode := none,
    weight := v, nameKana := some "ソープ" }

/-- One ledger row after column normalization and `clean_jan_codes`:
`旧JANコード`, `新JANコード`, `データソース` (all plain strings; only these
three columns are consulted by `remove_duplicates_advanced`, the others ride
along unchanged). -/
structure Row where
  janOld : String
  janNew : String
  source : String
deriving DecidableEq

/-- Substring test on character lists. -/
def containsSubL (pat : List Char) : List Char → Bool
  | [] => pat.isEmpty
  | c :: cs => pat.isPrefixOf (c :: cs) || containsSubL pat cs

/-- Case-insensitive substring test, modelling
`Series.str.contains(pat, case=False, regex=True)` for a literal
alternative. -/
def containsCI (s pat : String) : Bool :=
  containsSubL (lowerStr pat).toList (lowerStr s).toList

/-- The feed-source detector of `remove_duplicates_advanced` step 1:
`データソース.str.contains('花王|プラネット|KAO|PLANET', case=False)`. -/
def is_feed_source (s : String) : Bool :=
  containsCI s "花王" || containsCI s "プラネット" ||
  containsCI s "KAO" || containsCI s "PLANET"

/-- Step 1 of `remove_duplicates_advanced`: the `新JANコード` values of the
accumulated rows whose `データソース` marks a feed origin. -/
def rda_feed_jans (existing_df : List Row) : List String :=
  (existing_df.filter (fun e => is_feed_source e.source)).map (fun e => e.janNew)

/-- Step 2 of `remove_duplicates_advanced`: drop matching rows whose new JAN
collides with a feed-sourced JAN already in the ledger (guarded exactly like
`if not matching_df.empty and existing_kao_planet_jans:`). -/
def rda_step2 (existing_df matching_df : List Row) : List Row :=
  if !matching_df.isEmpty && !(rda_feed_jans existing_df).isEmpty then
    matching_df.filter (fun r => !((rda_feed_jans existing_df).contains r.janNew))
  else matching_df

/-- Step 3 of `remove_duplicates_advanced`: drop matching rows whose new or
old JAN collides with this run's feed rows. -/
def rda_step3 (kao_planet_df matching1 : List Row) : List Row :=
  if !kao_planet_df.isEmpty && !matching1.isEmpty then
    (matching1.filter (fun r =>
        !((kao_planet_df.map (fun k => k.janNew)).contains r.janNew))).filter
      (fun r => !((kao_planet_df.map (fun k => k.janOld)).contains r.janOld))
  else matching1

/-- `remove_duplicates_advanced`: the three-way priority merge of the
accumulated ledger, this run's feed rows (花王・プラネット) and this run's
matching rows — steps 1-3 above, concatenation in priority order,
deduplication by `新JANコード` keeping the first occurrence, and the final
`旧JAN = 新JAN` purge. -/
def remove_duplicates_advanced (existing_df kao_planet_df matching_df : List Row) :
    List Row :=
  let matching2 := rda_step3 kao_planet_df (rda_step2 existing_df matching_df)
  let all_data := existing_df ++ kao_planet_df ++ matching2
  let deduped := dedupBy (fun r => r.janNew) [] all_data
  deduped.filter (fun r => !(r.janOld == r.janNew))

/-- `clean_jan_codes` on one cell: `astype(str)` (modelled by receiving the
string, a missing cell arriving as "nan"), strip every non-digit
(`replace(r'\D+', '')`), `zfill(13)`, then `[:13]`. -/
def clean_jan (s : String) : String :=
  let ds := s.toList.filter (fun c => c.isDigit)
  String.mk ((List.replicate (13 - ds.length) '0' ++ ds).take 13)

/-- `clean_jan_codes` over a ledger: canonicalize both JAN columns. -/
def clean_jan_codes (rs : List Row) : List Row :=
  rs.map (fun r =>
    { r with janOld := clean_jan r.janOld, janNew := clean_jan r.janNew })

/-! ## Helper lemmas about deduplication, the stable sort, and the merge steps -/

theorem mem_of_mem_dedupBy {α β : Type} [DecidableEq β] (key : α → β) :
    ∀ (seen : List β) (l : List α) (x : α), x ∈ dedupBy key seen l → x ∈ l := by
  intro seen l
  induction l generalizing seen with
  | nil => intro x hx; simp [dedupBy] at hx
  | cons a as ih =>
    intro x hx
    simp only [dedupBy] at hx
    split at hx
    · exact List.mem_cons_of_mem _ (ih seen x hx)
    · rcases List.mem_cons.mp hx with h | h
      · exact h ▸ List.mem_cons_self _ _
      · exact List.mem_cons_of_mem _ (ih _ x h)

theorem dedupBy_key_not_mem {α β : Type} [DecidableEq β] (key : α → β) :
    ∀ (seen : List β) (l : List α) (x : α), x ∈ dedupBy key seen l → key x ∉ seen := by
  intro seen l
  induction l generalizing seen with
  | nil => intro x hx; simp [dedupBy] at hx
  | cons a as ih =>
    intro x hx
    simp only [dedupBy] at hx
    split at hx
    · exact ih seen x hx
    · rcases List.mem_cons.mp hx with h | h
      · subst h; assumption
      · intro hmem
        exact ih _ x h (List.mem_cons_of_mem _ hmem)

theorem dedupBy_pairwise {α β : Type} [DecidableEq β] (key : α → β) :
    ∀ (seen : List β) (l : List α),
      (dedupBy key seen l).Pairwise (fun a b => key a ≠ key b) := by
  intro seen l
  induction l generalizing seen with
  | nil => simp [dedupBy]
  | cons a as ih =>
    simp only [dedupBy]
    split
    · exact ih seen
    · refine List.Pairwise.cons ?_ (ih (key a :: seen))
      intro b hb hab
      exact dedupBy_key_not_mem key _ as b hb (hab ▸ List.mem_cons_self _ _)

theorem exists_mem_dedupBy {α β : Type} [DecidableEq β] (key : α → β) :
    ∀ (seen : List β) (l : List α) (k : β), (∃ a ∈ l, key a = k) → k ∉ seen →
      ∃ x ∈ dedupBy key seen l, key x = k := by
  intro seen l
  induction l generalizing seen with
  | nil => rintro k ⟨a, ha, -⟩ -; cases ha
  | cons a as ih =>
    rintro k ⟨b, hb, hbk⟩ hk
    simp only [dedupBy]
    split
    · rcases List.mem_cons.mp hb with rfl | hbs
      · exact absurd (hbk ▸ ‹key b ∈ seen›) hk
      · exact ih seen k ⟨b, hbs, hbk⟩ hk
    · by_cases hek : key a = k
      · exact ⟨a, List.mem_cons_self _ _, hek⟩
      · rcases List.mem_cons.mp hb with rfl | hbs
        · exact absurd hbk hek
        · have hkn : k ∉ key a :: seen := by
            intro hmem
            rcases List.mem_cons.mp hmem with h | h
            · exact hek h.symm
            · exact hk h
          obtain ⟨x, hx, hxk⟩ := ih (key a :: seen) k ⟨b, hbs, hbk⟩ hkn
          exact ⟨x, List.mem_cons_of_mem _ hx, hxk⟩

theorem insertDesc_of_forall_not_lt {α : Type} (key : α → ℚ) (x : α) :
    ∀ (acc : List α), (∀ y ∈ acc, ¬ key y < key x) →
      insertDesc key x acc = acc ++ [x] := by
  intro acc
  induction acc with
  | nil => intro h; rfl
  | cons y ys ih =>
    intro h
    simp only [insertDesc]
    rw [if_neg (h y (List.mem_cons_self _ _))]
    rw [ih (fun z hz => h z (List.mem_cons_of_mem _ hz))]
    simp

theorem foldl_insertDesc_const {α : Type} (key : α → ℚ) (c : ℚ) :
    ∀ (l acc : List α), (∀ a ∈ l, key a = c) → (∀ a ∈ acc, key a = c) →
      l.foldl (fun a x => insertDesc key x a) acc = acc ++ l := by
  intro l
  induction l with
  | nil => intro acc _ _; simp
  | cons a as ih =>
    intro acc hl hacc
    simp only [List.foldl_cons]
    rw [insertDesc_of_forall_not_lt key a acc (fun y hy => by
      rw [hacc y hy, hl a (List.mem_cons_self _ _)]; exact lt_irrefl c)]
    rw [ih (acc ++ [a]) (fun b hb => hl b (List.mem_cons_of_mem _ hb))
      (fun b hb => by
        rcases List.mem_append.mp hb with h | h
        · exact hacc b h
        · rw [List.mem_singleton.mp h]; exact hl a (List.mem_cons_self _ _))]
    simp

theorem stableSortDesc_const {α : Type} (key : α → ℚ) (c : ℚ) (l : List α)
    (h : ∀ a ∈ l, key a = c) : stableSortDesc key l = l := by
  unfold stableSortDesc
  rw [foldl_insertDesc_const key c l [] h (by simp)]
  simp

theorem mem_of_mem_rda_step2 (existing matching : List Row) (x : Row)
    (hx : x ∈ rda_step2 existing matching) : x ∈ matching := by
  unfold rda_step2 at hx
  split at hx
  · exact (List.mem_filter.mp hx).1
  · exact hx

theorem mem_of_mem_rda_step3 (kao m1 : List Row) (x : Row)
    (hx : x ∈ rda_step3 kao m1) : x ∈ m1 := by
  unfold rda_step3 at hx
  split at hx
  · exact (List.mem_filter.mp (List.mem_filter.mp hx).1).1
  · exact hx

theorem rda_step3_janNew_ne (kao m1 : List Row) (n : String)
    (hk : ∃ k ∈ kao, k.janNew = n) :
    ∀ x ∈ rda_step3 kao m1, x.janNew ≠ n := by
  intro x hx he
  obtain ⟨k, hkk, hkn⟩ := hk
  unfold rda_step3 at hx
  split at hx
  · have h1 := List.mem_filter.mp (List.mem_filter.mp hx).1
    have h2 := h1.2
    rw [Bool.not_eq_eq_eq_not, Bool.not_true] at h2
    have : (kao.map (fun k => k.janNew)).contains x.janNew = true := by
      simp only [List.contains_iff_exists_mem_beq]
      exact ⟨n, by simpa using ⟨k, hkk, hkn⟩, by simp [he]⟩
    rw [this] at h2
    cases h2
  · rename_i hguard
    rw [Bool.not_eq_true, Bool.and_eq_false_iff] at hguard
    rcases hguard with h | h
    · rw [Bool.not_eq_false', List.isEmpty_iff] at h
      subst h; cases hkk
    · rw [Bool.not_eq_false', List.isEmpty_iff] at h
      subst h; cases hx

theorem calculate_similarity_none (fr : String → String → ℚ)
    (x : Option String) : calculate_similarity fr none x = 0 := rfl

theorem scorePhase_shape (fr : String → String → ℚ) (olds : List OldRec)
    (nm : Option String) (m : List OldRecP) (sk : List String) (pat : String) :
    (((candPairs m).isEmpty = true ∨
        (stableSortDesc (fun t => t.1)
            ((candPairs m).map (fun p => (calculate_similarity fr nm p.1, p)))).head? =
          none)
      ∧ scorePhase fr olds nm m sk pat =
          some (mkNoCand "候補なし（名称一致なし）" (joinSkips sk)))
    ∨ ∃ bs bn bj,
        (stableSortDesc (fun t => t.1)
            ((candPairs m).map (fun p => (calculate_similarity fr nm p.1, p)))).head? =
          some (bs, bn, bj)
        ∧ scorePhase fr olds nm m sk pat =
            (olds.find? (janEq bj)).map (mkMatched bs bn bj sk pat) := by
  unfold scorePhase
  dsimp only
  split
  · rename_i hemp
    exact Or.inl ⟨Or.inl hemp, rfl⟩
  · split
    · rename_i heq
      exact Or.inl ⟨Or.inr heq, rfl⟩
    · rename_i bs bn bj heq
      exact Or.inr ⟨bs, bn, bj, heq, rfl⟩

theorem scorePhase_skipRiyuu (fr : String → String → ℚ) (olds : List OldRec)
    (nm : Option String) (m : List OldRecP) (sk : List String) (pat : String)
    (res : MatchResult) (hres : scorePhase fr olds nm m sk pat = some res) :
    res.skipRiyuu = joinSkips sk := by
  rcases scorePhase_shape fr olds nm m sk pat with ⟨-, hs⟩ | ⟨bs, bn, bj, -, hs⟩
  · rw [hs] at hres
    rw [← Option.some_inj.mp hres]
    rfl
  · rw [hs] at hres
    rcases hfind : olds.find? (janEq bj) with - | old
    · rw [hfind] at hres; simp at hres
    · rw [hfind] at hres
      simp only [Option.map_some'] at hres
      rw [← Option.some_inj.mp hres]
      rfl

theorem scorePhase_kekka_cases (fr : String → String → ℚ) (olds : List OldRec)
    (nm : Option String) (m : List OldRecP) (sk : List String) (pat : String)
    (res : MatchResult) (hres : scorePhase fr olds nm m sk pat = some res) :
    res.shougouKekka = "候補なし（名称一致なし）"
    ∨ res.shougouKekka = "高類似度候補あり (80%以上)"
    ∨ res.shougouKekka = "低類似度 (80%未満・要手動確認)" := by
  rcases scorePhase_shape fr olds nm m sk pat with ⟨-, hs⟩ | ⟨bs, bn, bj, -, hs⟩
  · rw [hs] at hres
    rw [← Option.some_inj.mp hres]
    exact Or.inl rfl
  · rw [hs] at hres
    rcases hfind : olds.find? (janEq bj) with - | old
    · rw [hfind] at hres; simp at hres
    · rw [hfind] at hres
      simp only [Option.map_some'] at hres
      rw [← Option.some_inj.mp hres]
      by_cases h8 : (8 : ℚ)/10 ≤ bs
      · exact Or.inr (Or.inl (by simp [mkMatched, h8]))
      · exact Or.inr (Or.inr (by simp [mkMatched, h8]))

theorem scorePhase_conf (fr : String → String → ℚ) (olds : List OldRec)
    (nm : Option String) (m : List OldRecP) (sk : List String) (pat : String)
    (res : MatchResult) (hres : scorePhase fr olds nm m sk pat = some res)
    (h : res.kouhoAri = true) :
    (res.shougouKekka = "高類似度候補あり (80%以上)" ↔ (8 : ℚ)/10 ≤ res.saikouRuijido)
    ∧ (res.shougouKekka = "低類似度 (80%未満・要手動確認)" ↔ res.saikouRuijido < 8/10)
    ∧ (res.hantei = "○" ↔ (8 : ℚ)/10 ≤ res.saikouRuijido) := by
  rcases scorePhase_shape fr olds nm m sk pat with ⟨-, hs⟩ | ⟨bs, bn, bj, -, hs⟩
  · rw [hs] at hres
    rw [← Option.some_inj.mp hres] at h
    simp [mkNoCand] at h
  · rw [hs] at hres
    rcases hfind : olds.find? (janEq bj) with - | old
    · rw [hfind] at hres; simp at hres
    · rw [hfind] at hres
      simp only [Option.map_some'] at hres
      rw [← Option.some_inj.mp hres]
      by_cases h8 : (8 : ℚ)/10 ≤ bs
      · simp only [mkMatched, if_pos h8]
        refine ⟨by simp [h8], ?_, by simp [h8]⟩
        constructor
        · intro hstr; exact absurd hstr (by decide)
        · intro hlt; exact absurd h8 (not_le.mpr hlt)
      · simp only [mkMatched, if_neg h8]
        refine ⟨?_, by simp [not_le.mp h8], ?_⟩
        · constructor
          · intro hstr; exact absurd hstr (by decide)
          · intro hle; exact absurd hle h8
        · constructor
          · intro hstr; exact absurd hstr (by decide)
          · intro hle; exact absurd hle h8

theorem find_best_match_shape (fr : String → String → ℚ) (olds : List OldRec)
    (r : NewRec) :
    (∃ msg, find_best_match fr olds r = some (mkNoCand msg ""))
    ∨ (∃ m sk pat, find_best_match fr olds r = scorePhase fr olds r.nameKana m sk pat) := by
  unfold find_best_match runTier
  dsimp only
  split_ifs <;>
    first
      | exact Or.inl ⟨_, rfl⟩
      | exact Or.inr ⟨_, _, _, rfl⟩

/-! ## C1: the short-circuit tier chain -/

/-- C1: For every NEW record, matching is a short-circuit priority chain:
a truthy brandCode routes to the brand index, and an empty brand lookup
terminates that record with 候補なし（ブランド不一致） without touching the
maker+type tier; otherwise truthy makerName and typeCode route to the
(maker, type) index, an empty lookup terminating with
候補なし（メーカー名称+タイプ不一致）; otherwise the record terminates with
候補なし（キーコード不足）.  An index miss is an empty list value (the
lookups are total functions), never an exception — all three terminating
branches return their outcome dict before the later fallible
`best_old_row` fetch. -/
theorem c1_tier_chain (fr : String → String → ℚ) (olds : List OldRec)
    (r : NewRec) :
    (truthy (normKey r.brandCode) = true →
      brandLookup (preprocess_old_data olds) ((normKey r.brandCode).getD "") = [] →
      find_best_match fr olds r = some (mkNoCand "候補なし（ブランド不一致）" ""))
    ∧ (truthy (normKey r.brandCode) = false →
      (truthy (normKey r.makerName) && truthy (normKey r.typeCode)) = true →
      mtLookup (preprocess_old_data olds) ((normKey r.makerName).getD "")
        ((normKey r.typeCode).getD "") = [] →
      find_best_match fr olds r = some (mkNoCand "候補なし（メーカー名称+タイプ不一致）" ""))
    ∧ (truthy (normKey r.brandCode) = false →
      (truthy (normKey r.makerName) && truthy (normKey r.typeCode)) = false →
      find_best_match fr olds r = some (mkNoCand "候補なし（キーコード不足）" ""))
    ∧ (∀ b : String, (∀ o ∈ preprocess_old_data olds, o.brandCode ≠ b) →
      brandLookup (preprocess_old_data olds) b = [])
    ∧ (∀ mk t : String,
      (∀ o ∈ preprocess_old_data olds, ¬(o.makerName = mk ∧ o.typeCode = t)) →
      mtLookup (preprocess_old_data olds) mk t = []) := by
  refine ⟨?_, ?_, ?_, ?_, ?_⟩
  · intro hb hemp
    unfold find_best_match
    rw [if_pos hb, hemp]
    unfold runTier
    simp
  · intro hb hmt hemp
    unfold find_best_match
    rw [if_neg (by simp [hb]), if_pos hmt, hemp]
    unfold runTier
    simp
  · intro hb hmt
    unfold find_best_match
    rw [if_neg (by simp [hb]), if_neg (by simp [hmt])]
  · intro b hall
    rw [brandLookup, List.filter_eq_nil_iff]
    intro o ho
    simpa using hall o ho
  · intro mk t hall
    rw [mtLookup, List.filter_eq_nil_iff]
    intro o ho
    simpa using hall o ho

/-- Witness for C1 at a concrete input: a NEW record with brand "B1" against
an empty OLD set terminates with the brand-mismatch outcome. -/
theorem c1_tier_chain_witness :
    find_best_match (fun _ _ => 0) [] (newW RawVal.na) =
      some (mkNoCand "候補なし（ブランド不一致）" "") :=
  (c1_tier_chain (fun _ _ => 0) [] (newW RawVal.na)).1 (by decide) rfl

/-! ## C5: the 0.8 confidence threshold -/

/-- C5: For every NEW record with a produced winning result
(候補あり = True), the result is labeled 高類似度候補あり (80%以上) with
判定 ○ exactly when the winning similarity score is ≥ 0.8, and
低類似度 (80%未満・要手動確認) exactly when the score is < 0.8. -/
theorem c5_confidence_threshold (fr : String → String → ℚ)
    (olds : List OldRec) (r : NewRec) (res : MatchResult)
    (hres : find_best_match fr olds r = some res)
    (h : res.kouhoAri = true) :
    (res.shougouKekka = "高類似度候補あり (80%以上)" ↔ (8 : ℚ)/10 ≤ res.saikouRuijido)
    ∧ (res.shougouKekka = "低類似度 (80%未満・要手動確認)" ↔ res.saikouRuijido < 8/10)
    ∧ (res.hantei = "○" ↔ (8 : ℚ)/10 ≤ res.saikouRuijido) := by
  rcases find_best_match_shape fr olds r with ⟨msg, hs⟩ | ⟨m, sk, pat, hs⟩
  · rw [hs] at hres
    rw [← Option.some_inj.mp hres] at h
    simp [mkNoCand] at h
  · rw [hs] at hres
    exact scorePhase_conf fr olds r.nameKana m sk pat res hres h

/-- Witness for C5 at a concrete input: one OLD record matching on brand,
ratio function constantly 90, so the produced result carries score 0.9 and
the high-confidence label. -/
theorem c5_confidence_threshold_witness :
    (mkMatched ((90 : ℚ)/100) (some "ソープ") (some "4900000000010")
        ["目付スキップ"] "ブランドのみ" (oldW 5)).shougouKekka =
      "高類似度候補あり (80%以上)"
      ↔ (8 : ℚ)/10 ≤ (mkMatched ((90 : ℚ)/100) (some "ソープ")
        (some "4900000000010") ["目付スキップ"] "ブランドのみ"
        (oldW 5)).saikouRuijido :=
  (c5_confidence_threshold (fun _ _ => 90) [oldW 5] (newW RawVal.na)
    (mkMatched ((90 : ℚ)/100) (some "ソープ") (some "4900000000010")
      ["目付スキップ"] "ブランドのみ" (oldW 5)) rfl rfl).1

/-! ## C9: a zero weight silently disables the weight band -/

theorem runTier_noFilter (fr : String → String → ℚ) (olds : List OldRec)
    (r : NewRec) (m0 : List OldRecP) (msg p1 p2 : String)
    (hn : notna r.weight = true)
    (hw : (truthyQ (get_weight_range r.weight).1 &&
        truthyQ (get_weight_range r.weight).2) = false) :
    runTier fr olds r m0 msg p1 p2 =
      if m0.isEmpty then some (mkNoCand msg "")
      else scorePhase fr olds r.nameKana m0 [] p1 := by
  unfold runTier
  simp only [hn, hw, if_true, Bool.false_eq_true, if_false]

/-- C9: For every NEW record whose weight is present and parses to 0.0, the
window bounds (0, 0) fail the `if min_w and max_w` truthiness guard, so the
matcher behaves exactly as on an unparsable weight cell: no weight filter
at all, and any produced result is never 候補なし（目付範囲外） and carries
no 目付スキップ skip reason either. -/
theorem c9_zero_weight (fr : String → String → ℚ) (olds : List OldRec)
    (r : NewRec) (h : r.weight = RawVal.num 0) :
    find_best_match fr olds r =
      find_best_match fr olds { r with weight := RawVal.unparsable "x" }
    ∧ (∀ res : MatchResult, find_best_match fr olds r = some res →
        res.shougouKekka ≠ "候補なし（目付範囲外）" ∧ res.skipRiyuu = "") := by
  have hnotna : notna r.weight = true := by rw [h]; rfl
  have hfalsy : (truthyQ (get_weight_range r.weight).1 &&
      truthyQ (get_weight_range r.weight).2) = false := by
    rw [h]; simp [get_weight_range, truthyQ]
  have hshape :
      find_best_match fr olds r =
        if truthy (normKey r.brandCode) = true then
          (if (brandLookup (preprocess_old_data olds)
              ((normKey r.brandCode).getD "")).isEmpty then
            some (mkNoCand "候補なし（ブランド不一致）" "")
          else
            scorePhase fr olds r.nameKana
              (brandLookup (preprocess_old_data olds)
                ((normKey r.brandCode).getD "")) [] "ブランドのみ")
        else if (truthy (normKey r.makerName) && truthy (normKey r.typeCode)) = true then
          (if (mtLookup (preprocess_old_data olds) ((normKey r.makerName).getD "")
              ((normKey r.typeCode).getD "")).isEmpty then
            some (mkNoCand "候補なし（メーカー名称+タイプ不一致）" "")
          else
            scorePhase fr olds r.nameKana
              (mtLookup (preprocess_old_data olds) ((normKey r.makerName).getD "")
                ((normKey r.typeCode).getD "")) [] "メーカー名称+タイプのみ")
        else some (mkNoCand "候補なし（キーコード不足）" "") := by
    unfold find_best_match
    dsimp only
    by_cases hb : truthy (normKey r.brandCode) = true
    · rw [if_pos hb, if_pos hb,
        runTier_noFilter fr olds r _ _ _ _ hnotna hfalsy]
    · by_cases hmt : (truthy (normKey r.makerName) && truthy (normKey r.typeCode)) = true
      · rw [if_neg hb, if_neg hb, if_pos hmt, if_pos hmt,
          runTier_noFilter fr olds r _ _ _ _ hnotna hfalsy]
      · rw [if_neg hb, if_neg hb, if_neg hmt, if_neg hmt]
  have hshape2 :
      find_best_match fr olds { r with weight := RawVal.unparsable "x" } =
        find_best_match fr olds r := by
    rw [hshape]
    unfold find_best_match
    dsimp only
    by_cases hb : truthy (normKey r.brandCode) = true
    · rw [if_pos hb, if_pos hb,
        runTier_noFilter fr olds { r with weight := RawVal.unparsable "x" }
          _ _ _ _ rfl rfl]
    · by_cases hmt : (truthy (normKey r.makerName) && truthy (normKey r.typeCode)) = true
      · rw [if_neg hb, if_neg hb, if_pos hmt, if_pos hmt,
          runTier_noFilter fr olds { r with weight := RawVal.unparsable "x" }
            _ _ _ _ rfl rfl]
      · rw [if_neg hb, if_neg hb, if_neg hmt, if_neg hmt]
  refine ⟨hshape2.symm, ?_⟩
  intro res hres
  rw [hshape] at hres
  by_cases hb : truthy (normKey r.brandCode) = true
  · rw [if_pos hb] at hres
    by_cases he : (brandLookup (preprocess_old_data olds)
        ((normKey r.brandCode).getD "")).isEmpty = true
    · rw [if_pos he] at hres
      rw [← Option.some_inj.mp hres]
      exact ⟨by decide, rfl⟩
    · rw [if_neg he] at hres
      constructor
      · rcases scorePhase_kekka_cases fr olds r.nameKana
            (brandLookup (preprocess_old_data olds) ((normKey r.brandCode).getD ""))
            [] "ブランドのみ" res hres with h1 | h1 | h1 <;> (rw [h1]; decide)
      · rw [scorePhase_skipRiyuu fr olds r.nameKana
          (brandLookup (preprocess_old_data olds) ((normKey r.brandCode).getD ""))
          [] "ブランドのみ" res hres]
        rfl
  · by_cases hmt : (truthy (normKey r.makerName) && truthy (normKey r.typeCode)) = true
    · rw [if_neg hb, if_pos hmt] at hres
      by_cases he : (mtLookup (preprocess_old_data olds)
          ((normKey r.makerName).getD "") ((normKey r.typeCode).getD "")).isEmpty = true
      · rw [if_pos he] at hres
        rw [← Option.some_inj.mp hres]
        exact ⟨by decide, rfl⟩
      · rw [if_neg he] at hres
        constructor
        · rcases scorePhase_kekka_cases fr olds r.nameKana
              (mtLookup (preprocess_old_data olds) ((normKey r.makerName).getD "")
                ((normKey r.typeCode).getD "")) [] "メーカー名称+タイプのみ" res hres with
            h1 | h1 | h1 <;> (rw [h1]; decide)
        · rw [scorePhase_skipRiyuu fr olds r.nameKana
            (mtLookup (preprocess_old_data olds) ((normKey r.makerName).getD "")
              ((normKey r.typeCode).getD "")) [] "メーカー名称+タイプのみ" res hres]
          rfl
    · rw [if_neg hb, if_neg hmt] at hres
      rw [← Option.some_inj.mp hres]
      exact ⟨by decide, rfl⟩

/-- Witness for C9 at a concrete input: brand tier, one OLD record of weight
5 (outside the degenerate window [0, 0]), NEW weight 0.0 — the matcher
behaves identically to the unparsable-weight run. -/
theorem c9_zero_weight_witness :
    find_best_match (fun _ _ => 0) [oldW 5] (newW (RawVal.num 0)) =
      find_best_match (fun _ _ => 0) [oldW 5]
        { newW (RawVal.num 0) with weight := RawVal.unparsable "x" } :=
  (c9_zero_weight (fun _ _ => 0) [oldW 5] (newW (RawVal.num 0)) rfl).1

theorem length_insertDesc {α : Type} (key : α → ℚ) (x : α) :
    ∀ l : List α, (insertDesc key x l).length = l.length + 1 := by
  intro l
  induction l with
  | nil => rfl
  | cons y ys ih =>
    simp only [insertDesc]
    split
    · simp
    · simp [ih]

theorem length_stableSortDesc {α : Type} (key : α → ℚ) (l : List α) :
    (stableSortDesc key l).length = l.length := by
  have haux : ∀ (l acc : List α),
      (l.foldl (fun a x => insertDesc key x a) acc).length = acc.length + l.length := by
    intro l
    induction l with
    | nil => intro acc; simp
    | cons a as ih =>
      intro acc
      simp only [List.foldl_cons]
      rw [ih (insertDesc key a acc), length_insertDesc]
      simp only [List.length_cons]
      omega
  unfold stableSortDesc
  rw [haux l []]
  simp

theorem candPairs_ne_nil (m : List OldRecP) (hm : m ≠ []) : candPairs m ≠ [] := by
  rcases m with - | ⟨a, as⟩
  · exact absurd rfl hm
  · unfold candPairs
    simp only [List.map_cons, dedupBy]
    rw [if_neg (by simp)]
    exact List.cons_ne_nil _ _

theorem scorePhase_kouhoAri (fr : String → String → ℚ) (olds : List OldRec)
    (nm : Option String) (m : List OldRecP) (sk : List String) (pat : String)
    (hm : m ≠ []) (res : MatchResult)
    (hres : scorePhase fr olds nm m sk pat = some res) : res.kouhoAri = true := by
  have hc := candPairs_ne_nil m hm
  rcases scorePhase_shape fr olds nm m sk pat with ⟨hg, -⟩ | ⟨bs, bn, bj, -, hs⟩
  · exfalso
    rcases hg with hg | hg
    · exact hc (List.isEmpty_iff.mp hg)
    · have hlen := length_stableSortDesc (fun t => (t.1 : ℚ))
        ((candPairs m).map (fun p => (calculate_similarity fr nm p.1, p)))
      rw [List.head?_eq_none_iff] at hg
      rw [hg] at hlen
      simp only [List.length_nil, List.length_map] at hlen
      exact hc (List.length_eq_zero.mp hlen.symm)
  · rw [hs] at hres
    rcases hfind : olds.find? (janEq bj) with - | old
    · rw [hfind] at hres; simp at hres
    · rw [hfind] at hres
      simp only [Option.map_some'] at hres
      rw [← Option.some_inj.mp hres]
      rfl

/-! ## C2: the weight-band filter -/

theorem runTier_weight_filter (fr : String → String → ℚ) (olds : List OldRec)
    (r : NewRec) (m0 : List OldRecP) (msg p1 p2 : String) (q : ℚ)
    (hw : r.weight = RawVal.num q) (hq : q ≠ 0) (hm0 : m0 ≠ []) :
    (m0.filter (fun o => inRange (some (q * (4/5))) (some (q * (6/5))) o.weightF) = [] →
      runTier fr olds r m0 msg p1 p2 = some (mkNoCand "候補なし（目付範囲外）" ""))
    ∧ (m0.filter (fun o => inRange (some (q * (4/5))) (some (q * (6/5))) o.weightF) ≠ [] →
      runTier fr olds r m0 msg p1 p2 =
        scorePhase fr olds r.nameKana
          (m0.filter (fun o => inRange (some (q * (4/5))) (some (q * (6/5))) o.weightF))
          [] p2) := by
  have hq1 : ((q * (4/5) : ℚ) == 0) = false := by
    simp [mul_eq_zero, hq]
  have hq2 : ((q * (6/5) : ℚ) == 0) = false := by
    simp [mul_eq_zero, hq]
  have hme : m0.isEmpty = false := by
    rw [List.isEmpty_eq_false_iff_exists_mem]
    rcases m0 with - | ⟨a, as⟩
    · exact absurd rfl hm0
    · exact ⟨a, List.mem_cons_self _ _⟩
  constructor
  · intro hemp
    unfold runTier
    rw [hw]
    simp only [hme, Bool.false_eq_true, if_false, notna, if_true,
      get_weight_range, truthyQ, hq1, hq2, Bool.not_false, Bool.and_self,
      hemp, List.isEmpty_nil]
  · intro hne
    have hfe : (m0.filter
        (fun o => inRange (some (q * (4/5))) (some (q * (6/5))) o.weightF)).isEmpty
        = false := by
      rw [List.isEmpty_eq_false_iff_exists_mem]
      rcases hl : m0.filter
          (fun o => inRange (some (q * (4/5))) (some (q * (6/5))) o.weightF) with - | ⟨a, as⟩
      · exact absurd hl hne
      · exact ⟨a, by rw [hl]; exact List.mem_cons_self _ _⟩
    unfold runTier
    rw [hw]
    simp only [hme, Bool.false_eq_true, if_false, notna, if_true,
      get_weight_range, truthyQ, hq1, hq2, Bool.not_false, Bool.and_self, hfe]

theorem runTier_weight_absent (fr : String → String → ℚ) (olds : List OldRec)
    (r : NewRec) (m0 : List OldRecP) (msg p1 p2 : String)
    (hw : r.weight = RawVal.na) (hm0 : m0 ≠ []) :
    runTier fr olds r m0 msg p1 p2 =
      scorePhase fr olds r.nameKana m0 ["目付スキップ"] p1 := by
  have hme : m0.isEmpty = false := by
    rw [List.isEmpty_eq_false_iff_exists_mem]
    rcases m0 with - | ⟨a, as⟩
    · exact absurd rfl hm0
    · exact ⟨a, List.mem_cons_self _ _⟩
  unfold runTier
  rw [hw]
  simp only [hme, Bool.false_eq_true, if_false, notna]

theorem find_best_match_brand_tier (fr : String → String → ℚ)
    (olds : List OldRec) (r : NewRec)
    (hb : truthy (normKey r.brandCode) = true) :
    find_best_match fr olds r =
      runTier fr olds r
        (brandLookup (preprocess_old_data olds) ((normKey r.brandCode).getD ""))
        "候補なし（ブランド不一致）" "ブランドのみ" "ブランド+目付" := by
  unfold find_best_match
  dsimp only
  rw [if_pos hb]

theorem find_best_match_mt_tier (fr : String → String → ℚ)
    (olds : List OldRec) (r : NewRec)
    (hb : truthy (normKey r.brandCode) = false)
    (hmt : (truthy (normKey r.makerName) && truthy (normKey r.typeCode)) = true) :
    find_best_match fr olds r =
      runTier fr olds r
        (mtLookup (preprocess_old_data olds) ((normKey r.makerName).getD "")
          ((normKey r.typeCode).getD ""))
        "候補なし（メーカー名称+タイプ不一致）" "メーカー名称+タイプのみ"
        "メーカー名称+タイプ+目付" := by
  unfold find_best_match
  dsimp only
  rw [if_neg (by simp [hb]), if_pos hmt]

/-- C2 counterexample: a NEW record whose weight is present and equal to 0.0,
with one brand-matching OLD candidate of weight 5 — outside the claimed
window [0*lowFactor, 0*highFactor] = [0, 0].  The claim requires the
候補なし（目付範囲外） outcome; the code keeps the candidate and reports a
match (候補あり = True). -/
theorem c2_weight_filter_counterexample :
    (find_best_match (fun _ _ => 0) [oldW 5] (newW (RawVal.num 0))).map
      (fun res => res.shougouKekka) ≠ some "候補なし（目付範囲外）"
    ∧ (find_best_match (fun _ _ => 0) [oldW 5] (newW (RawVal.num 0))).map
      (fun res => res.kouhoAri) = some true := by
  have hb : truthy (normKey (newW (RawVal.num 0)).brandCode) = true := by decide
  have hfalsy : (truthyQ (get_weight_range (newW (RawVal.num 0)).weight).1 &&
      truthyQ (get_weight_range (newW (RawVal.num 0)).weight).2) = false := by
    show (truthyQ (get_weight_range (RawVal.num 0)).1 &&
      truthyQ (get_weight_range (RawVal.num 0)).2) = false
    simp [get_weight_range, truthyQ]
  rw [find_best_match_brand_tier _ _ _ hb,
    runTier_noFilter _ _ _ _ _ _ _ (by rfl) hfalsy]
  rw [show brandLookup (preprocess_old_data [oldW 5])
      ((normKey (newW (RawVal.num 0)).brandCode).getD "") =
    [preprocess_old (oldW 5)] from rfl]
  rw [if_neg (by simp)]
  constructor
  · intro hcontra
    rcases Option.map_eq_some'.mp hcontra with ⟨res, hres, hk⟩
    rcases scorePhase_kekka_cases (fun _ _ => 0) [oldW 5]
        (newW (RawVal.num 0)).nameKana [preprocess_old (oldW 5)] []
        "ブランドのみ" res hres with h1 | h1 | h1 <;>
      (rw [h1] at hk; exact absurd hk (by decide))
  · rfl

/-- C2 (amended): For every NEW record whose weight is present and parses to
a nonzero float — in whichever of the two tiers matched it — candidates
whose old weight lies outside [weight × 0.8, weight × 1.2] are dropped with
inclusive bounds, and if the filter empties the set the record terminates
with 候補なし（目付範囲外）; for every NEW record whose weight is absent,
the filter is skipped, the skip reason 目付スキップ is recorded, and the
tier continues.  (A present weight equal to 0.0, or an unparsable weight
cell, silently disables the filter — see C9.) -/
theorem c2_weight_filter_amended (fr : String → String → ℚ)
    (olds : List OldRec) (r : NewRec) :
    (truthy (normKey r.brandCode) = true →
      brandLookup (preprocess_old_data olds) ((normKey r.brandCode).getD "") ≠ [] →
      (∀ q : ℚ, r.weight = RawVal.num q → q ≠ 0 →
        ((brandLookup (preprocess_old_data olds) ((normKey r.brandCode).getD "")).filter
            (fun o => inRange (some (q * (4/5))) (some (q * (6/5))) o.weightF) = [] →
          find_best_match fr olds r = some (mkNoCand "候補なし（目付範囲外）" ""))
        ∧ ((brandLookup (preprocess_old_data olds) ((normKey r.brandCode).getD "")).filter
            (fun o => inRange (some (q * (4/5))) (some (q * (6/5))) o.weightF) ≠ [] →
          find_best_match fr olds r =
            scorePhase fr olds r.nameKana
              ((brandLookup (preprocess_old_data olds) ((normKey r.brandCode).getD "")).filter
                (fun o => inRange (some (q * (4/5))) (some (q * (6/5))) o.weightF))
              [] "ブランド+目付"))
      ∧ (r.weight = RawVal.na →
        find_best_match fr olds r =
          scorePhase fr olds r.nameKana
            (brandLookup (preprocess_old_data olds) ((normKey r.brandCode).getD ""))
            ["目付スキップ"] "ブランドのみ"
        ∧ ∀ res : MatchResult, find_best_match fr olds r = some res →
            res.skipRiyuu = "目付スキップ"
            ∧ res.shougouKekka ≠ "候補なし（目付範囲外）"))
    ∧ (truthy (normKey r.brandCode) = false →
      (truthy (normKey r.makerName) && truthy (normKey r.typeCode)) = true →
      mtLookup (preprocess_old_data olds) ((normKey r.makerName).getD "")
        ((normKey r.typeCode).getD "") ≠ [] →
      (∀ q : ℚ, r.weight = RawVal.num q → q ≠ 0 →
        ((mtLookup (preprocess_old_data olds) ((normKey r.makerName).getD "")
            ((normKey r.typeCode).getD "")).filter
            (fun o => inRange (some (q * (4/5))) (some (q * (6/5))) o.weightF) = [] →
          find_best_match fr olds r = some (mkNoCand "候補なし（目付範囲外）" ""))
        ∧ ((mtLookup (preprocess_old_data olds) ((normKey r.makerName).getD "")
            ((normKey r.typeCode).getD "")).filter
            (fun o => inRange (some (q * (4/5))) (some (q * (6/5))) o.weightF) ≠ [] →
          find_best_match fr olds r =
            scorePhase fr olds r.nameKana
              ((mtLookup (preprocess_old_data olds) ((normKey r.makerName).getD "")
                ((normKey r.typeCode).getD "")).filter
                (fun o => inRange (some (q * (4/5))) (some (q * (6/5))) o.weightF))
              [] "メーカー名称+タイプ+目付"))
      ∧ (r.weight = RawVal.na →
        find_best_match fr olds r =
          scorePhase fr olds r.nameKana
            (mtLookup (preprocess_old_data olds) ((normKey r.makerName).getD "")
              ((normKey r.typeCode).getD ""))
            ["目付スキップ"] "メーカー名称+タイプのみ"
        ∧ ∀ res : MatchResult, find_best_match fr olds r = some res →
            res.skipRiyuu = "目付スキップ"
            ∧ res.shougouKekka ≠ "候補なし（目付範囲外）"))
    ∧ (∀ q w : ℚ, 0 < q →
      inRange (some (q * (4/5))) (some (q * (6/5))) (some (q * (4/5))) = true
      ∧ inRange (some (q * (4/5))) (some (q * (6/5))) (some (q * (6/5))) = true
      ∧ (inRange (some (q * (4/5))) (some (q * (6/5))) (some w) = true ↔
          q * (4/5) ≤ w ∧ w ≤ q * (6/5))
      ∧ inRange (some (q * (4/5))) (some (q * (6/5))) none = false) := by
  refine ⟨?_, ?_, ?_⟩
  · intro hb hm0
    have hfb := find_best_match_brand_tier fr olds r hb
    constructor
    · intro q hw hq
      rw [hfb]
      exact runTier_weight_filter fr olds r _ _ _ _ q hw hq hm0
    · intro hw
      rw [hfb, runTier_weight_absent fr olds r _ _ _ _ hw hm0]
      refine ⟨rfl, ?_⟩
      intro res hres
      constructor
      · rw [scorePhase_skipRiyuu fr olds r.nameKana
          (brandLookup (preprocess_old_data olds) ((normKey r.brandCode).getD ""))
          ["目付スキップ"] "ブランドのみ" res hres]
        rfl
      · rcases scorePhase_kekka_cases fr olds r.nameKana
            (brandLookup (preprocess_old_data olds) ((normKey r.brandCode).getD ""))
            ["目付スキップ"] "ブランドのみ" res hres with h1 | h1 | h1 <;>
          (rw [h1]; decide)
  · intro hb hmt hm0
    have hfb := find_best_match_mt_tier fr olds r hb hmt
    constructor
    · intro q hw hq
      rw [hfb]
      exact runTier_weight_filter fr olds r _ _ _ _ q hw hq hm0
    · intro hw
      rw [hfb, runTier_weight_absent fr olds r _ _ _ _ hw hm0]
      refine ⟨rfl, ?_⟩
      intro res hres
      constructor
      · rw [scorePhase_skipRiyuu fr olds r.nameKana
          (mtLookup (preprocess_old_data olds) ((normKey r.makerName).getD "")
            ((normKey r.typeCode).getD ""))
          ["目付スキップ"] "メーカー名称+タイプのみ" res hres]
        rfl
      · rcases scorePhase_kekka_cases fr olds r.nameKana
            (mtLookup (preprocess_old_data olds) ((normKey r.makerName).getD "")
              ((normKey r.typeCode).getD ""))
            ["目付スキップ"] "メーカー名称+タイプのみ" res hres with h1 | h1 | h1 <;>
          (rw [h1]; decide)
  · intro q w hq
    have hle : q * (4/5) ≤ q * (6/5) :=
      mul_le_mul_of_nonneg_left (by norm_num) hq.le
    refine ⟨?_, ?_, ?_, rfl⟩
    · simp [inRange, hle]
    · simp [inRange, hle]
    · simp [inRange]

/-- Witness for C2 (amended) at a concrete input: weight 100, one OLD
candidate of weight 200 outside [80, 120] — the record terminates with
候補なし（目付範囲外）. -/
theorem c2_weight_filter_amended_witness :
    find_best_match (fun _ _ => 0) [oldW 200] (newW (RawVal.num 100)) =
      some (mkNoCand "候補なし（目付範囲外）" "") := by
  have hpx : inRange (some ((100 : ℚ) * (4/5))) (some ((100 : ℚ) * (6/5)))
      (some 200) = false := by
    simp only [inRange, Bool.and_eq_false_iff]
    right
    rw [decide_eq_false_iff_not]
    norm_num
  have hfil : (brandLookup (preprocess_old_data [oldW 200])
      ((normKey (newW (RawVal.num 100)).brandCode).getD "")).filter
      (fun o => inRange (some ((100 : ℚ) * (4/5))) (some ((100 : ℚ) * (6/5)))
        o.weightF) = [] := by
    rw [show brandLookup (preprocess_old_data [oldW 200])
        ((normKey (newW (RawVal.num 100)).brandCode).getD "") =
      [preprocess_old (oldW 200)] from rfl]
    simp [List.filter_cons, preprocess_old, to_numeric, oldW, hpx]
  exact (((c2_weight_filter_amended (fun _ _ => 0) [oldW 200]
    (newW (RawVal.num 100))).1 (by decide) (by decide)).1 100 rfl
    (by norm_num)).1 hfil

/-! ## C8: absent kana name scores every candidate 0.0, first candidate selected -/

theorem scorePhase_none_score (fr : String → String → ℚ) (olds : List OldRec)
    (m : List OldRecP) (sk : List String) (pat : String) (res : MatchResult)
    (hres : scorePhase fr olds none m sk pat = some res)
    (hk : res.kouhoAri = true) :
    res.saikouRuijido = 0 := by
  have hsim0 : ∀ x : Option String, calculate_similarity fr none x = 0 := by
    intro x; cases x <;> rfl
  rcases scorePhase_shape fr olds none m sk pat with ⟨-, hs⟩ | ⟨bs, bn, bj, hh, hs⟩
  · rw [hs] at hres
    rw [← Option.some_inj.mp hres] at hk
    simp [mkNoCand] at hk
  · rw [hs] at hres
    rcases hfind : olds.find? (janEq bj) with - | old
    · rw [hfind] at hres; simp at hres
    · rw [hfind] at hres
      simp only [Option.map_some'] at hres
      rw [← Option.some_inj.mp hres]
      show bs = 0
      have hsort := stableSortDesc_const (fun t => (t.1 : ℚ)) 0
        ((candPairs m).map (fun p => (calculate_similarity fr none p.1, p)))
        (by
          intro a ha
          rcases List.mem_map.mp ha with ⟨p, -, rfl⟩
          exact hsim0 p.1)
      have hmem := List.mem_of_mem_head? hh
      rw [hsort] at hmem
      rcases List.mem_map.mp hmem with ⟨p, -, hp⟩
      have := congrArg Prod.fst hp
      simpa using this.symm

/-- C8 counterexample: a NEW record with absent nameKana whose single
deduplicated candidate has a missing old JAN.  The first candidate pair is
reached, but the `best_old_row` fetch
`df_old_original[df_old_original['JANコード_旧'] == best_jan].iloc[0]`
selects nothing and raises IndexError: the matcher aborts instead of
returning that candidate as the winner, so "the first candidate ... is
deterministically selected as the winner" fails at this input. -/
theorem c8_absent_name_counterexample :
    find_best_match (fun _ _ => 0)
      [{ makerName := some "M", brandCode := some "B1", typeCode := some "7",
         weight := RawVal.na, nameKana := some "ソープ", jan := none }]
      { makerName := none, brandCode := some "B1", typeCode := none,
        weight := RawVal.na, nameKana := none } = none := by decide

/-- C8 (amended): For every NEW record whose nameKana is absent, every
deduplicated candidate receives similarity score 0.0 and the stable
descending sort leaves the all-equal list in its original order, so the
first candidate pair of the deduplicated candidate list is
deterministically the selected one: whenever a result is produced it
carries exactly that pair with score 0, and the matcher aborts (the
`best_old_row` IndexError) precisely when that first pair's old JAN finds
no OLD row.  At the `find_best_match` level an absent nameKana forces a
winning score of 0 in every produced result. -/
theorem c8_absent_name (fr : String → String → ℚ) (olds : List OldRec)
    (matching : List OldRecP) (skips : List String) (pat : String)
    (pn pj : Option String) (rest : List (Option String × Option String))
    (hc : candPairs matching = (pn, pj) :: rest) :
    (∀ c ∈ candPairs matching, calculate_similarity fr none c.1 = 0)
    ∧ stableSortDesc (fun t : ℚ × (Option String × Option String) => t.1)
        ((candPairs matching).map (fun p => (calculate_similarity fr none p.1, p))) =
      (candPairs matching).map (fun p => (calculate_similarity fr none p.1, p))
    ∧ (∀ res : MatchResult, scorePhase fr olds none matching skips pat = some res →
        res.bestName = pn ∧ res.bestJan = pj
        ∧ res.saikouRuijido = 0 ∧ res.kouhoAri = true)
    ∧ (scorePhase fr olds none matching skips pat = none ↔
        olds.find? (janEq pj) = none)
    ∧ (∀ (r : NewRec) (res : MatchResult), r.nameKana = none →
        find_best_match fr olds r = some res → res.kouhoAri = true →
        res.saikouRuijido = 0) := by
  have hsim0 : ∀ x : Option String, calculate_similarity fr none x = 0 := by
    intro x; cases x <;> rfl
  have hallz : ∀ a ∈ ((candPairs matching).map
      (fun p => (calculate_similarity fr none p.1, p))),
      (fun t : ℚ × (Option String × Option String) => t.1) a = (0 : ℚ) := by
    intro a ha
    rcases List.mem_map.mp ha with ⟨p, -, rfl⟩
    exact hsim0 p.1
  have hsort := stableSortDesc_const
    (fun t : ℚ × (Option String × Option String) => t.1) 0
    ((candPairs matching).map (fun p => (calculate_similarity fr none p.1, p)))
    hallz
  have hh : (stableSortDesc (fun t : ℚ × (Option String × Option String) => t.1)
      ((candPairs matching).map
        (fun p => (calculate_similarity fr none p.1, p)))).head? =
      some (0, (pn, pj)) := by
    rw [hsort, hc]
    simp only [List.map_cons, List.head?_cons]
    rw [hsim0 pn]
  have hmain : scorePhase fr olds none matching skips pat =
      (olds.find? (janEq pj)).map (mkMatched 0 pn pj skips pat) := by
    rcases scorePhase_shape fr olds none matching skips pat with
      ⟨hg, -⟩ | ⟨bs, bn, bj, hh2, hs⟩
    · exfalso
      rcases hg with hg | hg
      · rw [hc] at hg
        simp at hg
      · rw [hh] at hg
        cases hg
    · rw [hh] at hh2
      simp only [Option.some.injEq, Prod.mk.injEq] at hh2
      obtain ⟨h1, h2, h3⟩ := hh2
      rw [hs, ← h1, ← h2, ← h3]
  refine ⟨fun c _ => hsim0 c.1, hsort, ?_, ?_, ?_⟩
  · intro res hres
    rw [hmain] at hres
    rcases hfind : olds.find? (janEq pj) with - | old
    · rw [hfind] at hres; simp at hres
    · rw [hfind] at hres
      simp only [Option.map_some'] at hres
      rw [← Option.some_inj.mp hres]
      exact ⟨rfl, rfl, rfl, rfl⟩
  · rw [hmain]
    rcases hfind : olds.find? (janEq pj) with - | old <;> simp [hfind]
  · intro r res hr hres hk
    rcases find_best_match_shape fr olds r with ⟨msg, hs⟩ | ⟨m2, sk2, pt2, hs⟩
    · rw [hs] at hres
      rw [← Option.some_inj.mp hres] at hk
      simp [mkNoCand] at hk
    · rw [hr] at hs
      rw [hs] at hres
      exact scorePhase_none_score fr olds m2 sk2 pt2 res hres hk

/-- Witness for C8 (amended) at a concrete input: one candidate with a
present old JAN matching one OLD record — the abort-iff equivalence holds
concretely (neither side: the lookup succeeds and a result is produced). -/
theorem c8_absent_name_witness :
    (scorePhase (fun _ _ => 0) [oldW 5] none [preprocess_old (oldW 5)] []
        "ブランドのみ" = none) ↔
      List.find? (janEq (some "4900000000010")) [oldW 5] = none :=
  (c8_absent_name (fun _ _ => 0) [oldW 5] [preprocess_old (oldW 5)] []
    "ブランドのみ" (some "ソープ") (some "4900000000010") [] (by decide)).2.2.2.1

/-! ## C6: one result per completed record; the report keeps only 候補あり rows -/

theorem collectResults_length (f : NewRec → Option MatchResult) :
    ∀ (l : List NewRec) (results : List MatchResult),
      collectResults f l = some results → results.length = l.length := by
  intro l
  induction l with
  | nil =>
    intro results h
    simp only [collectResults] at h
    rw [← Option.some_inj.mp h]
    rfl
  | cons r rs ih =>
    intro results h
    simp only [collectResults] at h
    rcases Option.bind_eq_some.mp h with ⟨res, -, hg⟩
    rcases Option.map_eq_some'.mp hg with ⟨others, hrec, hcons⟩
    rw [← hcons]
    simp [ih others hrec]

theorem collectResults_get (f : NewRec → Option MatchResult) :
    ∀ (l : List NewRec) (results : List MatchResult),
      collectResults f l = some results →
      ∀ (i : ℕ) (r0 : NewRec), l[i]? = some r0 → results[i]? = f r0 := by
  intro l
  induction l with
  | nil =>
    intro results h i r0 hi
    simp at hi
  | cons r rs ih =>
    intro results h i r0 hi
    simp only [collectResults] at h
    rcases Option.bind_eq_some.mp h with ⟨res, hf, hg⟩
    rcases Option.map_eq_some'.mp hg with ⟨others, hrec, hcons⟩
    rw [← hcons]
    rcases i with - | j
    · simp only [List.getElem?_cons_zero, Option.some.injEq] at hi ⊢
      rw [← hi]
      exact hf.symm
    · simp only [List.getElem?_cons_succ] at hi ⊢
      exact ih others hrec j r0 hi

theorem collectResults_none (f : NewRec → Option MatchResult) :
    ∀ (l : List NewRec) (r : NewRec), r ∈ l → f r = none →
      collectResults f l = none := by
  intro l
  induction l with
  | nil => intro r hr; cases hr
  | cons a as ih =>
    intro r hr hf
    simp only [collectResults]
    rcases List.mem_cons.mp hr with rfl | hmem
    · rw [hf]; rfl
    · rcases hfa : f a with - | res
      · rfl
      · rw [ih r hmem hf]
        rfl

/-- C6 counterexample: a NEW record that survives initial cleansing (its
makerName is present) but has neither a usable brand nor maker+type key.
The batch completes and `find_best_match` produces its
候補なし（キーコード不足） result, yet the primary report is empty: the
`final_df['候補あり'] == True` filter drops the row, so the record is
absent from the report, contradicting the claim. -/
theorem c6_one_row_counterexample :
    (clean_initial_data
      [{ makerName := some "X", brandCode := none, typeCode := none,
         weight := RawVal.na, nameKana := none }]).length = 1
    ∧ matchResults (fun _ _ => 0) []
      [{ makerName := some "X", brandCode := none, typeCode := none,
         weight := RawVal.na, nameKana := none }] =
      some [mkNoCand "候補なし（キーコード不足）" ""]
    ∧ primary_report (fun _ _ => 0) []
      [{ makerName := some "X", brandCode := none, typeCode := none,
         weight := RawVal.na, nameKana := none }] = some [] := by
  refine ⟨rfl, ?_, ?_⟩
  · decide
  · decide

/-- C6 (amended): when the batch completes, the pipeline computes exactly
one MatchResult value per NEW record that survives initial cleansing —
no-candidate outcomes being failure values — but a record whose winning
candidate JAN finds no OLD row raises IndexError and aborts the whole
batch, so "never exceptions" does not hold; and the primary report retains
only the rows whose result has 候補あり = True, no-candidate rows being
excluded rather than shown. -/
theorem c6_one_row_amended (fr : String → String → ℚ) (olds : List OldRec)
    (news : List NewRec) :
    (∀ results : List MatchResult, matchResults fr olds news = some results →
      results.length = (clean_initial_data news).length
      ∧ (∀ (i : ℕ) (r0 : NewRec), (clean_initial_data news)[i]? = some r0 →
          results[i]? = find_best_match fr olds r0))
    ∧ (∀ r ∈ clean_initial_data news, find_best_match fr olds r = none →
        matchResults fr olds news = none ∧ primary_report fr olds news = none)
    ∧ (∀ (results : List MatchResult) (pr : List (NewRec × MatchResult)),
        matchResults fr olds news = some results →
        primary_report fr olds news = some pr →
        (∀ p ∈ pr, p.2.kouhoAri = true)
        ∧ (∀ p ∈ (clean_initial_data news).zip results,
            p.2.kouhoAri = true → p ∈ pr)) := by
  refine ⟨?_, ?_, ?_⟩
  · intro results h
    exact ⟨collectResults_length _ _ results h,
      fun i r0 hi => collectResults_get _ _ results h i r0 hi⟩
  · intro r hr hf
    have hm : matchResults fr olds news = none :=
      collectResults_none _ _ r hr hf
    refine ⟨hm, ?_⟩
    unfold primary_report
    rw [hm]
    rfl
  · intro results pr hm hp
    unfold primary_report at hp
    rw [hm] at hp
    simp only [Option.map_some'] at hp
    rw [← Option.some_inj.mp hp]
    constructor
    · intro p hmem
      exact (List.mem_filter.mp hmem).2
    · intro p hmem hk
      exact List.mem_filter.mpr ⟨hmem, hk⟩

/-- Witness for C6 (amended) at a concrete input: one cleansed record, one
result value in the completed batch. -/
theorem c6_one_row_amended_witness :
    ([mkNoCand "候補なし（キーコード不足）" ""] : List MatchResult).length =
      (clean_initial_data
        [{ makerName := some "X", brandCode := none, typeCode := none,
           weight := RawVal.na, nameKana := none }]).length :=
  ((c6_one_row_amended (fun _ _ => 0) []
    [{ makerName := some "X", brandCode := none, typeCode := none,
       weight := RawVal.na, nameKana := none }]).1
    [mkNoCand "候補なし（キーコード不足）" ""] (by decide)).1

/-! ## C7: handling of missing-value markers in normalization -/

/-- C7 counterexample: an OLD record whose brandCode cell holds the literal
marker "NULL".  `load_data` maps it to true absence, but
`preprocess_old_data` then runs the key columns through
`astype(str).str.strip()`, which renders the missing value as the literal
string "nan" — so after normalization an OLD key field does hold the literal
string form of a missing value, contradicting the claim for OLD records. -/
theorem c7_normalization_counterexample :
    (preprocess_old (load_norm_old
      { makerName := some "M", brandCode := some "NULL", typeCode := some "7",
        weight := RawVal.na, nameKana := none,
        jan := some "4900000000010" })).brandCode = "nan" := by decide

/-- C7 (amended): `load_data` maps the literal marker "NULL" to true absence
and NEW-side key normalization in `find_best_match` never leaves the literal
string "nan" in a key field; weight coercion maps absent and unparsable
cells to absence, never to zero.  However, OLD-side preprocessing renders a
missing key field as the literal string "nan" (see the counterexample), so
the claim holds only for the NEW side. -/
theorem c7_normalization_amended :
    (replace_null (some "NULL") = none ∧ normKey none = none)
    ∧ (∀ s : String, normKey (replace_null (some s)) ≠ some "nan")
    ∧ (to_numeric RawVal.na = none
      ∧ (∀ s : String, to_numeric (RawVal.unparsable s) = none)
      ∧ (∀ v : RawVal, to_numeric (replace_null_raw v) = some 0 → v = RawVal.num 0))
    ∧ (∀ o : OldRec, o.brandCode = none → (preprocess_old o).brandCode = "nan") := by
  refine ⟨⟨rfl, rfl⟩, ?_, ⟨rfl, fun s => rfl, ?_⟩, ?_⟩
  · intro s
    by_cases hnull : (s == "NULL") = true
    · simp [replace_null, hnull, normKey]
    · by_cases hnan : (strip s == "nan") = true
      · simp [replace_null, hnull, normKey, hnan]
      · have hnan2 : strip s ≠ "nan" := by simpa using hnan
        simp [replace_null, hnull, normKey, hnan, hnan2]
  · intro v hv
    rcases v with - | q | sv
    · simp [replace_null_raw, to_numeric] at hv
    · have hq : q = 0 := by simpa [replace_null_raw, to_numeric] using hv
      rw [hq]
    · by_cases hn : (sv == "NULL") = true <;>
        simp [replace_null_raw, to_numeric, hn] at hv
  · intro o ho
    unfold preprocess_old
    rw [ho]
    rfl

/-- Witness for C7 (amended) at concrete inputs: normalizing the cell "nan "
yields absence rather than the literal string, and a missing OLD brand code
is rendered as the string "nan". -/
theorem c7_normalization_amended_witness :
    normKey (replace_null (some "nan ")) ≠ some "nan"
    ∧ (preprocess_old
      { makerName := some "M", brandCode := none, typeCode := some "7",
        weight := RawVal.na, nameKana := none,
        jan := some "4900000000010" }).brandCode = "nan" :=
  ⟨c7_normalization_amended.2.1 "nan ",
   c7_normalization_amended.2.2.2
     { makerName := some "M", brandCode := none, typeCode := some "7",
       weight := RawVal.na, nameKana := none,
       jan := some "4900000000010" } rfl⟩

/-! ## C4: invariants of the merged ledger -/

/-- C4: In the merged ledger produced by any run, 新JANコード values are
pairwise distinct and no row has 旧JANコード equal to 新JANコード: the
`drop_duplicates(subset=['新JANコード'], keep='first')` step establishes key
uniqueness and the final purge removes every 旧JAN = 新JAN row, and the
trailing filter preserves uniqueness. -/
theorem c4_ledger_invariant (existing kao matching : List Row) :
    (remove_duplicates_advanced existing kao matching).Pairwise
      (fun a b => a.janNew ≠ b.janNew)
    ∧ ∀ r ∈ remove_duplicates_advanced existing kao matching,
        r.janOld ≠ r.janNew := by
  constructor
  · exact List.Pairwise.sublist (List.filter_sublist _)
      (dedupBy_pairwise (fun r => r.janNew) []
        (existing ++ kao ++ rda_step3 kao (rda_step2 existing matching)))
  · intro r hr
    have h := (List.mem_filter.mp hr).2
    simpa using h

/-! ## C10: SKU canonicalization is total and 13-digit -/

/-- C10: `clean_jan_codes` is total and always yields an exactly-13-character
digit string: an input with no digit characters (including a missing value
rendered as "nan") canonicalizes to "0000000000000", an input with at least
13 digits keeps exactly its first 13 digits, and two distinct raw values can
collide after canonicalization. -/
theorem c10_clean_jan (s : String) :
    (clean_jan s).toList.length = 13
    ∧ (∀ c ∈ (clean_jan s).toList, c.isDigit = true)
    ∧ (s.toList.filter (fun c => c.isDigit) = [] → clean_jan s = "0000000000000")
    ∧ (13 ≤ (s.toList.filter (fun c => c.isDigit)).length →
        (clean_jan s).toList = (s.toList.filter (fun c => c.isDigit)).take 13)
    ∧ (clean_jan "nan" = "0000000000000"
      ∧ clean_jan "49-001" = clean_jan "49001"
      ∧ "49-001" ≠ "49001") := by
  have htl : (clean_jan s).toList =
      (List.replicate (13 - (s.toList.filter (fun c => c.isDigit)).length) '0' ++
        s.toList.filter (fun c => c.isDigit)).take 13 := rfl
  refine ⟨?_, ?_, ?_, ?_, by decide, by decide, by decide⟩
  · rw [htl, List.length_take, List.length_append, List.length_replicate]
    omega
  · intro c hc
    rw [htl] at hc
    have hc2 := List.take_subset _ _ hc
    rcases List.mem_append.mp hc2 with h | h
    · rw [List.eq_of_mem_replicate h]
      decide
    · exact List.of_mem_filter h
  · intro h
    simp only [clean_jan, h]
    decide
  · intro h
    rw [htl, Nat.sub_eq_zero_of_le h]
    simp

/-- Witness for C10 at concrete inputs: a 19-digit raw value keeps its first
13 digits. -/
theorem c10_clean_jan_witness :
    (clean_jan "49-001x23456789012345").toList =
      ("49-001x23456789012345".toList.filter (fun c => c.isDigit)).take 13 :=
  (c10_clean_jan "49-001x23456789012345").2.2.2.1 (by decide)

/-! ## C3: feed-over-matching priority in the ledger merge -/

/-- C3 counterexample: a feed row claiming 新JAN 4900000000001 whose 旧JAN
equals its 新JAN, against a matching row claiming the same 新JAN.  The
matching row is dropped (step 3), but the feed row is then purged by the
final 旧JAN = 新JAN step, so the merged ledger is empty — the feed entry is
NOT in the merged ledger, contradicting the claim's unconditional "the feed
entry is in the merged ledger". -/
theorem c3_feed_priority_counterexample :
    remove_duplicates_advanced []
      [{ janOld := "4900000000001", janNew := "4900000000001", source := "花王" }]
      [{ janOld := "4900000000002", janNew := "4900000000001",
         source := "マッチング結果" }] = [] := by decide

/-- C3 (amended): steps 1-3 and the priority concatenation behave as
claimed: whenever some feed row of this run claims a 新JAN, no matching row
with that 新JAN survives into the merged ledger (every output row with that
新JAN comes from the accumulated or feed input); and a feed row with that
新JAN is itself in the merged ledger provided no accumulated row claims the
same 新JAN and no feed row claiming it has 旧JAN equal to the 新JAN (the
final 旧JAN = 新JAN purge would otherwise delete it). -/
theorem c3_feed_priority_amended (existing kao matching : List Row) (n : String)
    (hk : ∃ k ∈ kao, k.janNew = n) :
    (∀ out ∈ remove_duplicates_advanced existing kao matching,
      out.janNew = n → out ∈ existing ++ kao)
    ∧ ((∀ e ∈ existing, e.janNew ≠ n) →
      (∀ k ∈ kao, k.janNew = n → k.janOld ≠ n) →
      ∃ out ∈ remove_duplicates_advanced existing kao matching,
        out.janNew = n ∧ out ∈ kao) := by
  have hstep3 := rda_step3_janNew_ne kao (rda_step2 existing matching) n hk
  have hmem_all : ∀ x ∈ remove_duplicates_advanced existing kao matching,
      x ∈ existing ++ kao ++ rda_step3 kao (rda_step2 existing matching) := by
    intro x hx
    have h1 := (List.mem_filter.mp hx).1
    exact mem_of_mem_dedupBy (fun r => r.janNew) [] _ x h1
  constructor
  · intro out hout hn
    have h2 := hmem_all out hout
    rcases List.mem_append.mp h2 with h | h
    · exact h
    · exact absurd hn (hstep3 out h)
  · intro he hko
    obtain ⟨k, hkk, hkn⟩ := hk
    have hkall : k ∈ existing ++ kao ++ rda_step3 kao (rda_step2 existing matching) := by
      rw [List.append_assoc]
      exact List.mem_append.mpr (Or.inr (List.mem_append.mpr (Or.inl hkk)))
    obtain ⟨x, hx, hxn⟩ := exists_mem_dedupBy (fun r => r.janNew) []
      (existing ++ kao ++ rda_step3 kao (rda_step2 existing matching)) n
      ⟨k, hkall, hkn⟩ (by simp)
    have hxall := mem_of_mem_dedupBy (fun r => r.janNew) [] _ x hx
    have hxkao : x ∈ kao := by
      rcases List.mem_append.mp hxall with h | h
      · rcases List.mem_append.mp h with h2 | h2
        · exact absurd hxn (he x h2)
        · exact h2
      · exact absurd hxn (hstep3 x h)
    have hxne : x.janOld ≠ x.janNew := by
      rw [hxn]
      exact hko x hxkao hxn
    refine ⟨x, ?_, hxn, hxkao⟩
    unfold remove_duplicates_advanced
    exact List.mem_filter.mpr ⟨hx, by simpa using hxne⟩

/-- Witness for C3 (amended) at a concrete input: a feed row and a matching
row both claim 新JAN 4900000000001 (feed 旧JAN differs) — a feed row with
that 新JAN is in the merged ledger. -/
theorem c3_feed_priority_amended_witness :
    ∃ out ∈ remove_duplicates_advanced []
      [{ janOld := "4900000000000", janNew := "4900000000001", source := "花王" }]
      [{ janOld := "4900000000002", janNew := "4900000000001",
         source := "マッチング結果" }],
      out.janNew = "4900000000001"
      ∧ out ∈
        [({ janOld := "4900000000000", janNew := "4900000000001",
            source := "花王" } : Row)] :=
  (c3_feed_priority_amended []
    [{ janOld := "4900000000000", janNew := "4900000000001", source := "花王" }]
    [{ janOld := "4900000000002", janNew := "4900000000001",
       source := "マッチング結果" }] "4900000000001"
    ⟨{ janOld := "4900000000000", janNew := "4900000000001", source := "花王" },
      List.mem_cons_self _ _, rfl⟩).2
    (by intro e he2; cases he2) (by decide)
